import Mathlib

/-!
Shallow embedding of the ticket collaboration core of the Internal Support
Ticket & Knowledge Base system (Express + better-sqlite3 backend).

The SQLite store is modelled as an explicit `Db` state: lists of rows for the
`users`, `tickets`, `ticket_messages` and `attachments` tables, plus a `disk`
association list modelling the upload directory on the filesystem.  Machine
integers are `Nat`; SQLite has no boolean, so boolean columns are stored as
`Nat` (0/1) exactly as the adapter writes them.  Each controller or service
function from the source is translated to a pure function; functions that
mutate the store return the new `Db` alongside an `Except` result, and
environment inputs (wall clock, `Math.random`, filesystem errors) are passed
as explicit parameters.
-/

namespace SupportTicket

/-- JS `Boolean(x)` applied to a stored SQLite integer: nonzero is `true`.
Used on every read of a boolean column (`is_internal`, `is_active`). -/
def sqliteToBool (n : Nat) : Bool := n != 0

/-- JS `b ? 1 : 0` conversion applied on every write of a boolean column. -/
def boolToSqlite (b : Bool) : Nat := if b then 1 else 0

/-- JS falsiness of an optional string field (`!x`): absent or empty. -/
def jsFalsy : Option String → Bool
  | none => true
  | some s => s == ""

/-- Row of the `users` table (`is_active` stored as an integer). -/
structure UserRow where
  id : Nat
  name : String
  email : String
  role : String
  is_active : Nat
deriving DecidableEq

/-- Row of the `tickets` table (timestamps modelled as `Nat`). -/
structure Ticket where
  id : Nat
  ticket_number : String
  user_id : Nat
  title : String
  description : String
  category : String
  priority : String
  status : String
  assigned_to : Option Nat
  created_at : Nat
  updated_at : Nat
deriving DecidableEq

/-- Row of the `ticket_messages` table (`is_internal` stored as an integer). -/
structure MessageRow where
  id : Nat
  ticket_id : Nat
  user_id : Nat
  message : String
  is_internal : Nat
  created_at : Nat
deriving DecidableEq

/-- The nested `user` object attached to a message by the read queries. -/
structure MsgUser where
  id : Nat
  name : String
  email : String
  role : String
deriving DecidableEq

/-- Business-level `TicketMessage` as returned by the service reads:
`is_internal` has been converted back to a boolean. -/
structure TicketMessage where
  id : Nat
  ticket_id : Nat
  user_id : Nat
  message : String
  is_internal : Bool
  created_at : Nat
  user : MsgUser
deriving DecidableEq

/-- Row of the `attachments` table. -/
structure Attachment where
  id : Nat
  ticket_id : Nat
  original_filename : String
  stored_filename : String
  file_path : String
  file_size : Nat
  mime_type : String
  uploaded_by : Nat
  uploaded_at : Nat
deriving DecidableEq

/-- The whole persistent state: the four SQLite tables the core touches,
the upload directory on disk (path ↦ bytes), and the AUTOINCREMENT
counters of the three tables the core inserts into. -/
structure Db where
  users : List UserRow
  tickets : List Ticket
  messages : List MessageRow
  attachments : List Attachment
  disk : List (String × List Nat)
  nextTicketId : Nat
  nextMessageId : Nat
  nextAttachmentId : Nat
deriving DecidableEq

/-- The `req.user` payload installed by the `authenticate` middleware. -/
structure AuthUser where
  userId : Nat
  role : String
deriving DecidableEq

/-- Error kinds of the spec taxonomy; each constructor corresponds to a
distinct throw/`res.status` site in the source and carries its message. -/
inductive Err where
  | validation : String → Err
  | notFound : String → Err
  | forbidden : String → Err
  | payloadTooLarge : String → Err
  | unsupportedType : String → Err
  | conflict : String → Err
deriving DecidableEq

deriving instance DecidableEq for Except

/-- Insertion step for `sortLe`. -/
def insertLe {α : Type} (le : α → α → Bool) (a : α) : List α → List α
  | [] => [a]
  | b :: t => if le a b then a :: b :: t else b :: insertLe le a t

/-- Insertion sort, modelling SQL `ORDER BY` (tie order unspecified). -/
def sortLe {α : Type} (le : α → α → Bool) : List α → List α
  | [] => []
  | a :: t => insertLe le a (sortLe le t)

theorem mem_insertLe {α : Type} (le : α → α → Bool) (a x : α) (l : List α) :
    x ∈ insertLe le a l ↔ x = a ∨ x ∈ l := by
  induction l with
  | nil => simp [insertLe]
  | cons b t ih =>
    simp only [insertLe]
    split
    · simp
    · simp only [List.mem_cons, ih]
      tauto

theorem mem_sortLe {α : Type} (le : α → α → Bool) (x : α) (l : List α) :
    x ∈ sortLe le l ↔ x ∈ l := by
  induction l with
  | nil => simp [sortLe]
  | cons a t ih => simp [sortLe, mem_insertLe, ih]

/-- Decimal digit character (`n` is taken modulo the match fall-through). -/
def digitChar : Nat → Char
  | 0 => '0'
  | 1 => '1'
  | 2 => '2'
  | 3 => '3'
  | 4 => '4'
  | 5 => '5'
  | 6 => '6'
  | 7 => '7'
  | 8 => '8'
  | _ => '9'

/-- Fuel-bounded decimal expansion, most significant digit first; any
`fuel > n` is enough to produce every digit of `n`. -/
def natToDecimalAux (fuel n : Nat) : List Char :=
  match fuel with
  | 0 => []
  | fuel + 1 =>
    if n < 10 then [digitChar n]
    else natToDecimalAux fuel (n / 10) ++ [digitChar (n % 10)]

/-- Decimal digit list of a natural number, most significant first;
embeds JS `Number.prototype.toString()` (base 10) on naturals. -/
def natToDecimal (n : Nat) : List Char := natToDecimalAux (n + 1) n

/-- JS `String.prototype.trim`: drop whitespace at both ends, modelled
executably on the character list. -/
def strTrim (s : String) : String :=
  String.mk (((s.toList.dropWhile Char.isWhitespace).reverse.dropWhile
    Char.isWhitespace).reverse)

/-- JS `String(n)` / `n.toString()` for a natural number. -/
def natToStr (n : Nat) : String := String.mk (natToDecimal n)

/-- JS `s.padStart(4, '0')` on a digit list: prepend zeros up to length 4
(a longer list is returned unchanged, since `4 - length = 0`). -/
def pad4 (l : List Char) : List Char := List.replicate (4 - l.length) '0' ++ l

/-- `generateTicketNumber` from `utils/helpers.ts`:
`TKT-<year>-<Math.floor(Math.random() * 10000) padded to 4 digits>`.
The wall-clock year and the random draw are explicit parameters. -/
def generateTicketNumber (year rand : Nat) : String :=
  "TKT-" ++ natToStr year ++ "-" ++ String.mk (pad4 (natToDecimal rand))

/-- `TicketService.getTicketById`: `SELECT * FROM tickets WHERE id = ?`. -/
def getTicketById (db : Db) (id : Nat) : Option Ticket :=
  db.tickets.find? (fun t => t.id == id)

/-- `TicketService.createTicket` composed with the ticket-number generation:
validates presence of title/description/category, generates the number,
inserts the row (status and assignee take the schema defaults `'open'` /
`NULL`), and returns the row read back.  The `UNIQUE` constraint on
`ticket_number` makes an insert with a colliding number fail; the service
has no regeneration loop, so the failure surfaces. -/
def svcCreateTicket (db : Db) (year rand now userId : Nat)
    (title description category : Option String) (priority : String) :
    Except Err Ticket × Db :=
  if jsFalsy title || jsFalsy description || jsFalsy category then
    (.error (.validation "Title, description, and category are required"), db)
  else
    let tn := generateTicketNumber year rand
    if db.tickets.any (fun t => t.ticket_number == tn) then
      (.error (.conflict "UNIQUE constraint failed: tickets.ticket_number"), db)
    else
      let t : Ticket :=
        { id := db.nextTicketId, ticket_number := tn, user_id := userId,
          title := title.getD "", description := description.getD "",
          category := category.getD "", priority := priority,
          status := "open", assigned_to := none,
          created_at := now, updated_at := now }
      (.ok t, { db with tickets := db.tickets ++ [t],
                        nextTicketId := db.nextTicketId + 1 })

/-- `TicketController.createTicket`: destructures the body with
`priority = 'medium'` as default and calls the service. -/
def ctrlCreateTicket (db : Db) (year rand now : Nat) (user : AuthUser)
    (title description category priority : Option String) :
    Except Err Ticket × Db :=
  svcCreateTicket db year rand now user.userId title description category
    (priority.getD "medium")

/-- Joined projection of a message row with its author
(`JOIN users u ON tm.user_id = u.id`); a row whose author is missing is
dropped by the inner join.  `Boolean(message.is_internal)` is the
integer-to-boolean read conversion. -/
def msgRowToMessage (db : Db) (row : MessageRow) : Option TicketMessage :=
  (db.users.find? (fun u => u.id == row.user_id)).map (fun u =>
    { id := row.id, ticket_id := row.ticket_id, user_id := row.user_id,
      message := row.message, is_internal := sqliteToBool row.is_internal,
      created_at := row.created_at,
      user := { id := row.user_id, name := u.name, email := u.email,
                role := u.role } })

/-- `TicketService.getMessageById`. -/
def getMessageById (db : Db) (id : Nat) : Option TicketMessage :=
  (db.messages.find? (fun m => m.id == id)).bind (msgRowToMessage db)

/-- `TicketService.getTicketMessages`:
messages of the ticket joined with users, `ORDER BY created_at ASC`. -/
def getTicketMessages (db : Db) (ticketId : Nat) : List TicketMessage :=
  sortLe (fun a b => a.created_at ≤ b.created_at)
    ((db.messages.filter (fun m => m.ticket_id == ticketId)).filterMap
      (msgRowToMessage db))

/-- `TicketService.addMessage`: validates the body, checks the ticket
exists, inserts the row with `is_internal ? 1 : 0`, and returns the row
read back through `getMessageById` (the `!` assertion on the read-back is
modelled as an unreachable not-found error). -/
def svcAddMessage (db : Db) (now ticketId userId : Nat)
    (message : String) (is_int : Bool) : Except Err TicketMessage × Db :=
  if strTrim message == "" then
    (.error (.validation "Message content is required"), db)
  else
    match getTicketById db ticketId with
    | none => (.error (.notFound "Ticket not found"), db)
    | some _ =>
      let row : MessageRow :=
        { id := db.nextMessageId, ticket_id := ticketId, user_id := userId,
          message := strTrim message, is_internal := boolToSqlite is_int,
          created_at := now }
      let db' := { db with messages := db.messages ++ [row],
                           nextMessageId := db.nextMessageId + 1 }
      match getMessageById db' row.id with
      | some m => (.ok m, db')
      | none => (.error (.notFound "Message not found"), db')

/-- `TicketController.addMessage`: validates the body, checks ticket
existence and ownership, resolves the visibility flag
(`req.user.role === 'admin' && is_internal`), and calls the service
with the trimmed message. -/
def ctrlAddMessage (db : Db) (now : Nat) (user : AuthUser) (ticketId : Nat)
    (message : Option String) (is_int : Bool) :
    Except Err TicketMessage × Db :=
  if jsFalsy message || strTrim (message.getD "") == "" then
    (.error (.validation "Message content is required"), db)
  else
    match getTicketById db ticketId with
    | none => (.error (.notFound "Ticket not found"), db)
    | some t =>
      if user.role ≠ "admin" ∧ t.user_id ≠ user.userId then
        (.error (.forbidden "Access denied"), db)
      else
        let isInternalBool := user.role == "admin" && is_int
        svcAddMessage db now ticketId user.userId
          (strTrim (message.getD "")) isInternalBool

/-- `TicketController.getTicketMessages`: ownership check, then the thread,
with internal messages filtered out for non-admin viewers. -/
def ctrlGetTicketMessages (db : Db) (user : AuthUser) (ticketId : Nat) :
    Except Err (List TicketMessage) :=
  match getTicketById db ticketId with
  | none => .error (.notFound "Ticket not found")
  | some t =>
    if user.role ≠ "admin" ∧ t.user_id ≠ user.userId then
      .error (.forbidden "Access denied")
    else
      let messages := getTicketMessages db ticketId
      .ok (if user.role == "admin" then messages
           else messages.filter (fun m => !m.is_internal))

/-- The composite returned by `TicketService.getTicketWithDetails`. -/
structure TicketDetails where
  ticket : Ticket
  user : Option UserRow
  assigned_admin : Option UserRow
  messages : List TicketMessage
deriving DecidableEq

/-- `TicketService.getTicketWithDetails`: the ticket, its creator, the
assigned admin if any, and the full (unfiltered) message thread. -/
def getTicketWithDetails (db : Db) (id : Nat) : Option TicketDetails :=
  (getTicketById db id).map (fun t =>
    { ticket := t,
      user := db.users.find? (fun u => u.id == t.user_id),
      assigned_admin := t.assigned_to.bind
        (fun a => db.users.find? (fun u => u.id == a)),
      messages := getTicketMessages db id })

/-- `TicketController.getTicketById` (the single-ticket detail view):
not-found check, ownership check, then the details as-is. -/
def ctrlGetTicketById (db : Db) (user : AuthUser) (id : Nat) :
    Except Err TicketDetails :=
  match getTicketWithDetails db id with
  | none => .error (.notFound "Ticket not found")
  | some d =>
    if user.role ≠ "admin" ∧ d.ticket.user_id ≠ user.userId then
      .error (.forbidden "Access denied")
    else
      .ok d

/-- The update payload accepted by `TicketService.updateTicket`
(`undefined` fields are absent). -/
structure TicketUpdate where
  status : Option String
  assigned_to : Option Nat
  priority : Option String
deriving DecidableEq

/-- Apply the present fields of an update to a ticket row, also setting
`updated_at = CURRENT_TIMESTAMP` (the dynamic `UPDATE` statement). -/
def applyTicketUpdate (now : Nat) (upd : TicketUpdate) (t : Ticket) : Ticket :=
  let t := match upd.status with
    | some s => { t with status := s }
    | none => t
  let t := match upd.assigned_to with
    | some a => { t with assigned_to := some a }
    | none => t
  let t := match upd.priority with
    | some p => { t with priority := p }
    | none => t
  { t with updated_at := now }

/-- `TicketService.updateTicket`: not-found check, early return when no
field is present, otherwise the dynamic update followed by a read back. -/
def svcUpdateTicket (db : Db) (now id : Nat) (upd : TicketUpdate) :
    Except Err Ticket × Db :=
  match getTicketById db id with
  | none => (.error (.notFound "Ticket not found"), db)
  | some t =>
    if upd.status = none ∧ upd.assigned_to = none ∧ upd.priority = none then
      (.ok t, db)
    else
      let db' := { db with
        tickets := db.tickets.map
          (fun x => if x.id == id then applyTicketUpdate now upd x else x) }
      match getTicketById db' id with
      | some t' => (.ok t', db')
      | none => (.error (.notFound "Ticket not found"), db')

/-- The `PUT /tickets/:id` route: `requireAdmin` middleware, then
`TicketController.updateTicket` which calls the service. -/
def routeUpdateTicket (db : Db) (now : Nat) (user : AuthUser) (id : Nat)
    (upd : TicketUpdate) : Except Err Ticket × Db :=
  if user.role ≠ "admin" then
    (.error (.forbidden "Admin access required"), db)
  else
    svcUpdateTicket db now id upd

/-- `TicketService.deleteTicket`: `DELETE FROM tickets WHERE id = ?`;
`ON DELETE CASCADE` removes the ticket's messages and attachment rows
(blobs on disk are not touched).  Returns `changes > 0`. -/
def svcDeleteTicket (db : Db) (id : Nat) : Bool × Db :=
  (db.tickets.any (fun t => t.id == id),
   { db with tickets := db.tickets.filter (fun t => t.id != id),
             messages := db.messages.filter (fun m => m.ticket_id != id),
             attachments := db.attachments.filter (fun a => a.ticket_id != id) })

/-- The `DELETE /tickets/:id` route: `requireAdmin`, then
`TicketController.deleteTicket` (404 when nothing was deleted). -/
def routeDeleteTicket (db : Db) (user : AuthUser) (id : Nat) :
    Except Err Unit × Db :=
  if user.role ≠ "admin" then
    (.error (.forbidden "Admin access required"), db)
  else
    let r := svcDeleteTicket db id
    if r.1 then (.ok (), r.2)
    else (.error (.notFound "Ticket not found"), r.2)

/-- Case-folding of a character as in JS `String.prototype.toLowerCase`
restricted to ASCII. -/
def lowerChar (c : Char) : Char :=
  if 'A' ≤ c ∧ c ≤ 'Z' then Char.ofNat (c.toNat + 32) else c

/-- Substring test on character lists (`needle` occurs in `hay`). -/
def listHasInfix (hay needle : List Char) : Bool :=
  match hay with
  | [] => needle.isEmpty
  | _ :: t => needle.isPrefixOf hay || listHasInfix t needle

/-- SQLite `column LIKE '%query%'` (case-insensitive on ASCII). -/
def likeContains (hay q : String) : Bool :=
  listHasInfix (hay.toList.map lowerChar) (q.toList.map lowerChar)

/-- `TicketService.searchTickets`: `LIKE` match on title, description and
ticket number, with `AND user_id = ?` added only when the optional
`userId` argument is truthy (JS `if (userId)`: `0` is falsy), then
`ORDER BY created_at DESC`. -/
def svcSearchTickets (db : Db) (q : String) (userId : Option Nat) :
    List Ticket :=
  sortLe (fun a b => b.created_at ≤ a.created_at)
    (db.tickets.filter (fun t =>
      (likeContains t.title q || likeContains t.description q ||
        likeContains t.ticket_number q) &&
      (match userId with
       | some uid => if uid == 0 then true else t.user_id == uid
       | none => true)))

/-- `TicketController.searchTickets`: requires a query string, scopes the
search to the caller's own tickets unless the caller is an admin. -/
def ctrlSearchTickets (db : Db) (user : AuthUser) (q : Option String) :
    Except Err (List Ticket) :=
  if jsFalsy q then
    .error (.validation "Search query is required")
  else
    .ok (svcSearchTickets db (q.getD "")
      (if user.role == "admin" then none else some user.userId))

/-- `MAX_FILE_SIZE` default: 5 MiB. -/
def MAX_FILE_SIZE : Nat := 5242880

/-- The MIME allow-list of `FileService.uploadFile`. -/
def allowedMimeTypes : List String :=
  ["image/jpeg", "image/png", "image/gif", "application/pdf", "text/plain",
   "application/msword",
   "application/vnd.openxmlformats-officedocument.wordprocessingml.document",
   "application/zip"]

/-- A multer `Express.Multer.File`: the fields `uploadFile` reads. -/
structure UploadedFile where
  originalname : String
  mimetype : String
  size : Nat
  buffer : List Nat
deriving DecidableEq

/-- `fs.writeFileSync`: (over)write a path on disk. -/
def writeDisk (disk : List (String × List Nat)) (p : String)
    (bytes : List Nat) : List (String × List Nat) :=
  (p, bytes) :: disk.filter (fun e => e.1 != p)

/-- `FileService.getAttachmentById`. -/
def getAttachmentById (db : Db) (id : Nat) : Option Attachment :=
  db.attachments.find? (fun a => a.id == id)

/-- `FileService.uploadFile`: size check, MIME allow-list check, then the
blob write followed by the metadata insert.  The generated unique stored
filename is an explicit parameter (it comes from timestamp + random
bytes); `file_path` is `path.join(UPLOAD_DIR, storedFilename)`. -/
def uploadFile (db : Db) (now : Nat) (storedFilename : String)
    (ticketId userId : Nat) (file : UploadedFile) :
    Except Err Attachment × Db :=
  if MAX_FILE_SIZE < file.size then
    (.error (.payloadTooLarge "File size exceeds maximum limit of 5MB"), db)
  else if !(allowedMimeTypes.contains file.mimetype) then
    (.error (.unsupportedType "File type not allowed"), db)
  else
    let filePath := "./uploads/" ++ storedFilename
    let att : Attachment :=
      { id := db.nextAttachmentId, ticket_id := ticketId,
        original_filename := file.originalname,
        stored_filename := storedFilename, file_path := filePath,
        file_size := file.size, mime_type := file.mimetype,
        uploaded_by := userId, uploaded_at := now }
    (.ok att,
     { db with disk := writeDisk db.disk filePath file.buffer,
               attachments := db.attachments ++ [att],
               nextAttachmentId := db.nextAttachmentId + 1 })

/-- `FileService.getTicketAttachments`: rows of the ticket,
`ORDER BY uploaded_at DESC`. -/
def fsGetTicketAttachments (db : Db) (ticketId : Nat) : List Attachment :=
  sortLe (fun a b => b.uploaded_at ≤ a.uploaded_at)
    (db.attachments.filter (fun a => a.ticket_id == ticketId))

/-- `FileService.deleteAttachment`: looks up the metadata row; attempts
`fs.unlinkSync` on the blob inside a `try`/`catch` that swallows (logs)
any error; then unconditionally deletes the metadata row and reports
`changes > 0`.  `unlinkFails p` models `unlinkSync(p)` throwing. -/
def fsDeleteAttachment (db : Db) (unlinkFails : String → Bool) (id : Nat) :
    Bool × Db :=
  match getAttachmentById db id with
  | none => (false, db)
  | some a =>
    let disk' :=
      if db.disk.any (fun e => e.1 == a.file_path) then
        if unlinkFails a.file_path then db.disk
        else db.disk.filter (fun e => e.1 != a.file_path)
      else db.disk
    (true, { db with disk := disk',
                     attachments := db.attachments.filter
                       (fun x => x.id != id) })

/-- `FileService.getFileStream`: bytes at the stored path, if present. -/
def getFileStream (db : Db) (a : Attachment) : Option (List Nat) :=
  (db.disk.find? (fun e => e.1 == a.file_path)).map (fun e => e.2)

/-- `FileService.validateFileAccess`: `false` when the metadata row is
missing; admins may access everything; otherwise the caller must own the
attachment's ticket. -/
def validateFileAccess (db : Db) (attachmentId userId : Nat)
    (userRole : String) : Bool :=
  match getAttachmentById db attachmentId with
  | none => false
  | some a =>
    if userRole == "admin" then true
    else
      match getTicketById db a.ticket_id with
      | some t => t.user_id == userId
      | none => false

/-- `UploadController.uploadAttachment`: file presence, ticket existence,
ownership, then `FileService.uploadFile`. -/
def ctrlUploadAttachment (db : Db) (now : Nat) (storedFilename : String)
    (user : AuthUser) (ticketId : Nat) (file : Option UploadedFile) :
    Except Err Attachment × Db :=
  match file with
  | none => (.error (.validation "No file uploaded"), db)
  | some f =>
    match getTicketById db ticketId with
    | none => (.error (.notFound "Ticket not found"), db)
    | some t =>
      if user.role ≠ "admin" ∧ t.user_id ≠ user.userId then
        (.error (.forbidden "Access denied"), db)
      else
        uploadFile db now storedFilename ticketId user.userId f

/-- `UploadController.getTicketAttachments`: ticket existence, ownership,
then the attachment list. -/
def ctrlGetTicketAttachments (db : Db) (user : AuthUser) (ticketId : Nat) :
    Except Err (List Attachment) :=
  match getTicketById db ticketId with
  | none => .error (.notFound "Ticket not found")
  | some t =>
    if user.role ≠ "admin" ∧ t.user_id ≠ user.userId then
      .error (.forbidden "Access denied")
    else
      .ok (fsGetTicketAttachments db ticketId)

/-- `UploadController.downloadAttachment`: `validateFileAccess` first
(403 on failure), then the metadata lookup (404), then the file stream
(404 when the blob is missing on disk). -/
def ctrlDownloadAttachment (db : Db) (user : AuthUser)
    (attachmentId : Nat) : Except Err (List Nat) :=
  if !(validateFileAccess db attachmentId user.userId user.role) then
    .error (.forbidden "Access denied")
  else
    match getAttachmentById db attachmentId with
    | none => .error (.notFound "Attachment not found")
    | some a =>
      match getFileStream db a with
      | none => .error (.notFound "File not found on disk")
      | some bytes => .ok bytes

/-- `UploadController.deleteAttachment`: admin-only, then
`FileService.deleteAttachment` (404 when nothing was deleted). -/
def ctrlDeleteAttachment (db : Db) (unlinkFails : String → Bool)
    (user : AuthUser) (id : Nat) : Except Err Unit × Db :=
  if user.role ≠ "admin" then
    (.error (.forbidden "Admin access required"), db)
  else
    let r := fsDeleteAttachment db unlinkFails id
    if r.1 then (.ok (), r.2)
    else (.error (.notFound "Attachment not found"), r.2)

/-- Business-level user view returned by the admin user reads
(`is_active` converted back to a boolean). -/
structure UserInfo where
  id : Nat
  name : String
  email : String
  role : String
  is_active : Bool
deriving DecidableEq

/-- `UserService.updateUser` restricted to the `is_active` field:
`updates.is_active ? 1 : 0` written to the row. -/
def svcUpdateUserIsActive (db : Db) (id : Nat) (b : Bool) : Db :=
  { db with users := db.users.map (fun u =>
      if u.id == id then { u with is_active := boolToSqlite b } else u) }

/-- Admin user read (`SELECT id, name, email, role, is_active ... WHERE
id = ?`) with `is_active: Boolean(user.is_active)` on the way out. -/
def svcGetUser (db : Db) (id : Nat) : Option UserInfo :=
  (db.users.find? (fun u => u.id == id)).map (fun u =>
    { id := u.id, name := u.name, email := u.email, role := u.role,
      is_active := sqliteToBool u.is_active })

/-- Does a detail-view result expose an internal message? -/
def detailHasInternal (r : Except Err TicketDetails) : Bool :=
  match r with
  | .ok d => d.messages.any (fun m => m.is_internal)
  | .error _ => false

/-- Does a thread-read result expose an internal message? -/
def threadHasInternal (r : Except Err (List TicketMessage)) : Bool :=
  match r with
  | .ok l => l.any (fun m => m.is_internal)
  | .error _ => false

/-! ### Sample data for concrete witnesses and counterexamples -/

/-- Sample administrator row. -/
def uAdmin : UserRow :=
  { id := 1, name := "Admin User", email := "admin@example.com",
    role := "admin", is_active := 1 }

/-- Sample member row (owner of the sample ticket). -/
def uMember : UserRow :=
  { id := 2, name := "John Doe", email := "user@example.com",
    role := "user", is_active := 1 }

/-- Sample member row (not an owner of anything). -/
def uOther : UserRow :=
  { id := 3, name := "Jane Roe", email := "jane@example.com",
    role := "user", is_active := 1 }

/-- Sample ticket, created by member 2. -/
def t1 : Ticket :=
  { id := 1, ticket_number := "TKT-2026-0042", user_id := 2,
    title := "Printer broken", description := "It jams",
    category := "hardware", priority := "medium", status := "open",
    assigned_to := none, created_at := 10, updated_at := 10 }

/-- Sample internal message row authored by the admin. -/
def row1 : MessageRow :=
  { id := 1, ticket_id := 1, user_id := 1, message := "internal note",
    is_internal := 1, created_at := 11 }

/-- Sample public message row authored by the member. -/
def row2 : MessageRow :=
  { id := 2, ticket_id := 1, user_id := 2, message := "hello",
    is_internal := 0, created_at := 12 }

/-- Base sample state: three users, one ticket, two messages. -/
def dbC2 : Db :=
  { users := [uAdmin, uMember, uOther], tickets := [t1],
    messages := [row1, row2], attachments := [], disk := [],
    nextTicketId := 2, nextMessageId := 3, nextAttachmentId := 1 }

/-- Sample attachment row on ticket 1. -/
def att1 : Attachment :=
  { id := 1, ticket_id := 1, original_filename := "a.png",
    stored_filename := "s.png", file_path := "./uploads/s.png",
    file_size := 3, mime_type := "image/png", uploaded_by := 2,
    uploaded_at := 13 }

/-- Sample state with the attachment's metadata row and its blob. -/
def dbC4 : Db :=
  { dbC2 with attachments := [att1],
              disk := [("./uploads/s.png", [7, 8, 9])],
              nextAttachmentId := 2 }

/-- Sample state with the metadata row but a dangling locator
(no blob on disk). -/
def dbC6b : Db := { dbC2 with attachments := [att1], nextAttachmentId := 2 }

/-- Second sample ticket, created by member 3. -/
def t2b : Ticket :=
  { id := 2, ticket_number := "TKT-2026-0099", user_id := 3,
    title := "Printer on fire", description := "smoke",
    category := "hardware", priority := "high", status := "open",
    assigned_to := none, created_at := 11, updated_at := 11 }

/-- Sample state with tickets of two different members. -/
def dbC10 : Db := { dbC2 with tickets := [t1, t2b], nextTicketId := 3 }

/-- An environment in which every `unlinkSync` call throws. -/
def alwaysFails : String → Bool := fun _ => true

/-- Message row produced by the sample append of C1's witness. -/
def rowW : MessageRow :=
  { id := 3, ticket_id := 1, user_id := 2, message := "hi",
    is_internal := 0, created_at := 20 }

/-- State after the sample append of C1's witness. -/
def dbW : Db :=
  { dbC2 with messages := [row1, row2, rowW], nextMessageId := 4 }

/-- Business message returned by the sample append of C1's witness. -/
def mW : TicketMessage :=
  { id := 3, ticket_id := 1, user_id := 2, message := "hi",
    is_internal := false, created_at := 20,
    user := { id := 2, name := "John Doe", email := "user@example.com",
              role := "user" } }

/-- Ticket created by the sample creation of C8's witness. -/
def tW : Ticket :=
  { id := 2, ticket_number := "TKT-2026-0007", user_id := 2,
    title := "T", description := "D", category := "hardware",
    priority := "medium", status := "open", assigned_to := none,
    created_at := 40, updated_at := 40 }

/-- State after the sample creation of C8's witness. -/
def dbW8 : Db :=
  { dbC2 with tickets := [t1, tW], nextTicketId := 3 }

/-- Sample upload at exactly the 5 MiB ceiling. -/
def fOk : UploadedFile :=
  { originalname := "a.png", mimetype := "image/png", size := 5242880,
    buffer := [1, 2, 3] }

/-- Sample upload one byte over the ceiling. -/
def fBig : UploadedFile :=
  { originalname := "b.png", mimetype := "image/png", size := 5242881,
    buffer := [] }

/-- Sample upload with a disallowed MIME type. -/
def fExe : UploadedFile :=
  { originalname := "x.exe", mimetype := "application/x-executable",
    size := 10, buffer := [] }

/-- Sample ticket update payload. -/
def updW : TicketUpdate :=
  { status := some "closed", assigned_to := none, priority := none }

/-- Message row produced by the sample admin-internal append of C3. -/
def rowW3 : MessageRow :=
  { id := 3, ticket_id := 1, user_id := 1, message := "secret",
    is_internal := 1, created_at := 21 }

/-- State after the sample admin-internal append of C3. -/
def dbW3 : Db :=
  { dbC2 with messages := [row1, row2, rowW3], nextMessageId := 4 }

/-- Business message returned by the sample admin-internal append of C3. -/
def mW3 : TicketMessage :=
  { id := 3, ticket_id := 1, user_id := 1, message := "secret",
    is_internal := true, created_at := 21,
    user := { id := 1, name := "Admin User", email := "admin@example.com",
              role := "admin" } }

/-! ### Helper lemmas -/

theorem find?_append_of_none {α : Type} (p : α → Bool) (l₁ l₂ : List α)
    (h : ∀ x ∈ l₁, p x = false) :
    (l₁ ++ l₂).find? p = l₂.find? p := by
  induction l₁ with
  | nil => rfl
  | cons a t ih =>
    have ha : p a = false := h a (by simp)
    simp only [List.cons_append, List.find?, ha]
    exact ih (fun x hx => h x (by simp [hx]))

/-- Anatomy of a successful `svcAddMessage` call, assuming the
AUTOINCREMENT invariant that no stored message already carries the next
row id: the appended row, the returned message, and its membership in the
subsequent thread read. -/
theorem svcAddMessage_ok (db : Db) (now tid uid : Nat) (msg : String)
    (b : Bool) (m : TicketMessage) (db' : Db)
    (hfresh : ∀ r ∈ db.messages, r.id ≠ db.nextMessageId)
    (h : svcAddMessage db now tid uid msg b = (.ok m, db')) :
    db'.messages = db.messages ++
      [{ id := db.nextMessageId, ticket_id := tid, user_id := uid,
         message := strTrim msg, is_internal := boolToSqlite b,
         created_at := now }]
    ∧ m.id = db.nextMessageId
    ∧ m.is_internal = b
    ∧ m ∈ getTicketMessages db' tid := by
  classical
  set row : MessageRow :=
    { id := db.nextMessageId, ticket_id := tid, user_id := uid,
      message := strTrim msg, is_internal := boolToSqlite b,
      created_at := now } with hrow
  set db₂ : Db :=
    { db with messages := db.messages ++ [row],
              nextMessageId := db.nextMessageId + 1 } with hdb₂
  have hunf : svcAddMessage db now tid uid msg b =
      (if strTrim msg == "" then
        (.error (.validation "Message content is required"), db)
      else
        match getTicketById db tid with
        | none => (.error (.notFound "Ticket not found"), db)
        | some _ =>
          match getMessageById db₂ row.id with
          | some m₀ => (.ok m₀, db₂)
          | none => (.error (.notFound "Message not found"), db₂)) := rfl
  rw [hunf] at h
  split at h
  · exact absurd (congrArg Prod.fst h) (by simp)
  · split at h
    · exact absurd (congrArg Prod.fst h) (by simp)
    · have hfind : db₂.messages.find? (fun r => r.id == row.id) = some row := by
        have he : db₂.messages = db.messages ++ [row] := rfl
        rw [he, find?_append_of_none]
        · simp [List.find?]
        · intro x hx
          simp only [beq_eq_false_iff_ne, ne_eq]
          exact fun e => hfresh x hx (by simpa [hrow] using e)
      rcases hm : getMessageById db₂ row.id with _ | m₀
      · rw [hm] at h
        exact absurd (congrArg Prod.fst h) (by simp)
      · rw [hm] at h
        have hm2 : m₀ = m := by
          have := congrArg Prod.fst h
          simpa using this
        have hdb' : db' = db₂ := by
          have := congrArg Prod.snd h
          simpa using this.symm
        have hrow_to : msgRowToMessage db₂ row = some m := by
          rw [← hm2]
          simpa [getMessageById, hfind] using hm
        subst hdb'
        rcases hu : db₂.users.find? (fun u => u.id == row.user_id) with _ | u
        · rw [msgRowToMessage, hu] at hrow_to
          simp at hrow_to
        · have hm3 :
              ({ id := row.id, ticket_id := row.ticket_id,
                 user_id := row.user_id, message := row.message,
                 is_internal := sqliteToBool row.is_internal,
                 created_at := row.created_at,
                 user := { id := row.user_id, name := u.name,
                           email := u.email, role := u.role } }
                : TicketMessage) = m := by
            simpa [msgRowToMessage, hu] using hrow_to
          refine ⟨rfl, ?_, ?_, ?_⟩
          · rw [← hm3]
          · rw [← hm3]
            cases b <;> simp [sqliteToBool, boolToSqlite, hrow]
          · simp only [getTicketMessages, mem_sortLe, List.mem_filterMap]
            refine ⟨row, ?_, hrow_to⟩
            simp [List.mem_filter, hrow]

theorem digitChar_isDigit (k : Nat) : (digitChar k).isDigit = true := by
  rcases k with _ | _ | _ | _ | _ | _ | _ | _ | _ | k <;> rfl

theorem natToDecimalAux_digits (fuel : Nat) :
    ∀ n c, c ∈ natToDecimalAux fuel n → c.isDigit = true := by
  induction fuel with
  | zero => intro n c hc; simp [natToDecimalAux] at hc
  | succ fuel ih =>
    intro n c hc
    rw [natToDecimalAux] at hc
    split at hc
    · simp at hc
      simp [hc, digitChar_isDigit]
    · rcases List.mem_append.mp hc with h₁ | h₂
      · exact ih (n / 10) c h₁
      · simp at h₂
        simp [h₂, digitChar_isDigit]

theorem natToDecimal_digits (n : Nat) :
    ∀ c ∈ natToDecimal n, c.isDigit = true :=
  fun c hc => natToDecimalAux_digits (n + 1) n c hc

theorem natToDecimalAux_length_le (fuel : Nat) :
    ∀ n k, 1 ≤ k → n < 10 ^ k → n < fuel →
      (natToDecimalAux fuel n).length ≤ k := by
  induction fuel with
  | zero => intro n k _ _ hf; omega
  | succ fuel ih =>
    intro n k hk hn hf
    rw [natToDecimalAux]
    by_cases h : n < 10
    · rw [if_pos h]
      simpa using hk
    · rw [if_neg h]
      have hk2 : 2 ≤ k := by
        by_contra hc
        have : k = 1 := by omega
        subst this
        simp at hn
        omega
      have hdiv : n / 10 < 10 ^ (k - 1) := by
        rw [Nat.div_lt_iff_lt_mul (by norm_num)]
        calc n < 10 ^ k := hn
        _ = 10 ^ (k - 1) * 10 := by
              rw [← pow_succ]
              congr 1
              omega
      have hlt : n / 10 < fuel := by
        have := Nat.div_lt_self (show 0 < n by omega) (show 1 < 10 by omega)
        omega
      have := ih (n / 10) (k - 1) (by omega) hdiv hlt
      simp only [List.length_append, List.length_cons, List.length_nil]
      omega

theorem natToDecimal_length_le (n k : Nat) (hk : 1 ≤ k)
    (hn : n < 10 ^ k) : (natToDecimal n).length ≤ k :=
  natToDecimalAux_length_le (n + 1) n k hk hn (by omega)

theorem active_flag_update_read (l : List UserRow) (id : Nat) (b : Bool)
    (u : UserRow)
    (h : (l.map (fun x => if x.id == id
            then { x with is_active := boolToSqlite b } else x)).find?
          (fun x => x.id == id) = some u) :
    u.is_active = boolToSqlite b := by
  induction l with
  | nil => simp at h
  | cons a t ih =>
    simp only [List.map_cons] at h
    by_cases ha : a.id = id
    · rw [List.find?_cons_of_pos _ (by simp [ha])] at h
      simp only [Option.some.injEq] at h
      subst h
      simp [ha]
    · rw [List.find?_cons_of_neg _ (by simp [ha])] at h
      exact ih h

/-! ### Claim theorems -/

/-- C2: the claim that every member-visible thread read filters internal
messages fails on the single-ticket detail view: `getTicketWithDetails`
returns the unfiltered thread and `TicketController.getTicketById` hands
it to a member owner as-is, while the dedicated messages endpoint does
filter — on the same state, the member's detail view exposes an internal
message that the member's thread endpoint correctly hides. -/
theorem member_detail_view_leaks_internal_message :
    detailHasInternal (ctrlGetTicketById dbC2 ⟨2, "user"⟩ 1) = true
    ∧ threadHasInternal (ctrlGetTicketMessages dbC2 ⟨2, "user"⟩ 1) = false := by
  constructor <;> rfl

/-- C4 counterexample: deleting attachment 1 while every `unlinkSync`
throws still reports success and removes the metadata row, leaving the
blob in place — the claimed "fail entirely, metadata untouched" behavior
does not hold. -/
theorem delete_attachment_partial_success_counterexample :
    (fsDeleteAttachment dbC4 alwaysFails 1).1 = true
    ∧ (fsDeleteAttachment dbC4 alwaysFails 1).2.attachments = []
    ∧ (fsDeleteAttachment dbC4 alwaysFails 1).2.disk = dbC4.disk := by
  refine ⟨rfl, rfl, rfl⟩

/-- C4 amended: on every delete of an existing attachment, blob deletion
is attempted first but its failure is swallowed; the metadata row is
removed and success is reported regardless, and on blob-deletion failure
the blob is left orphaned on disk. -/
theorem delete_attachment_swallows_blob_failure (db : Db)
    (uf : String → Bool) (id : Nat) (a : Attachment)
    (h : getAttachmentById db id = some a) :
    (fsDeleteAttachment db uf id).1 = true
    ∧ (∀ x ∈ (fsDeleteAttachment db uf id).2.attachments, x.id ≠ id)
    ∧ (uf a.file_path = true →
        (fsDeleteAttachment db uf id).2.disk = db.disk) := by
  simp only [fsDeleteAttachment, h]
  refine ⟨by trivial, ?_, ?_⟩
  · intro x hx
    simp only [List.mem_filter] at hx
    simpa using hx.2
  · intro hf
    simp only [hf, if_true]
    split <;> rfl

/-- C4 witness: the amended behavior at the concrete failing state. -/
theorem delete_attachment_swallows_blob_failure_witness :
    (fsDeleteAttachment dbC4 alwaysFails 1).1 = true
    ∧ (∀ x ∈ (fsDeleteAttachment dbC4 alwaysFails 1).2.attachments,
        x.id ≠ 1)
    ∧ (alwaysFails att1.file_path = true →
        (fsDeleteAttachment dbC4 alwaysFails 1).2.disk = dbC4.disk) :=
  delete_attachment_swallows_blob_failure dbC4 alwaysFails 1 att1 rfl

/-- C6 counterexample: a download of a nonexistent attachment id by an
administrator (an authorized caller for every attachment) fails with the
ForbiddenError produced by `validateFileAccess`, not with the
NotFoundError the claim requires — the controller's own 404 branch for
missing metadata is unreachable. -/
theorem download_missing_metadata_forbidden_counterexample :
    ctrlDownloadAttachment dbC2 ⟨1, "admin"⟩ 99 =
      .error (.forbidden "Access denied") := by
  rfl

/-- C6 amended: when the metadata row is missing the download fails with
ForbiddenError (because `validateFileAccess` treats a missing row as no
access), and only the dangling-locator case (metadata present, caller
authorized, blob unresolvable) fails with NotFoundError — the two
conditions are therefore distinguishable to the caller. -/
theorem download_failure_taxonomy (db : Db) (user : AuthUser) (aid : Nat) :
    (getAttachmentById db aid = none →
      ctrlDownloadAttachment db user aid =
        .error (.forbidden "Access denied"))
    ∧ (∀ a, getAttachmentById db aid = some a →
        validateFileAccess db aid user.userId user.role = true →
        getFileStream db a = none →
        ctrlDownloadAttachment db user aid =
          .error (.notFound "File not found on disk")) := by
  constructor
  · intro h
    simp [ctrlDownloadAttachment, validateFileAccess, h]
  · intro a ha hacc hfs
    simp [ctrlDownloadAttachment, hacc, ha, hfs]

/-- C6 witness: both amended failure modes at concrete states. -/
theorem download_failure_taxonomy_witness :
    ctrlDownloadAttachment dbC2 ⟨1, "admin"⟩ 99 =
      .error (.forbidden "Access denied")
    ∧ ctrlDownloadAttachment dbC6b ⟨1, "admin"⟩ 1 =
      .error (.notFound "File not found on disk") :=
  ⟨(download_failure_taxonomy dbC2 ⟨1, "admin"⟩ 99).1 rfl,
   (download_failure_taxonomy dbC6b ⟨1, "admin"⟩ 1).2 att1 rfl rfl rfl⟩

/-- C1: boolean round-trip at the persistence boundary — a successful
append stores the resolved visibility as integer 1/0, the returned and
subsequently read message carries it back as the same boolean, and the
account active flag round-trips through its write/read coercions the same
way.  (The hypothesis is SQLite's AUTOINCREMENT guarantee that no stored
row already carries the next row id.) -/
theorem boolean_roundtrip_at_persistence_boundary (db : Db)
    (now tid uid : Nat) (msg : String) (b : Bool)
    (m : TicketMessage) (db' : Db)
    (hfresh : ∀ r ∈ db.messages, r.id ≠ db.nextMessageId)
    (h : svcAddMessage db now tid uid msg b = (.ok m, db')) :
    (∃ row ∈ db'.messages, row.id = m.id ∧ row.is_internal = boolToSqlite b)
    ∧ m.is_internal = b
    ∧ m ∈ getTicketMessages db' tid
    ∧ (∀ (db₂ : Db) (uid₂ : Nat) (b₂ : Bool) (u : UserInfo),
        svcGetUser (svcUpdateUserIsActive db₂ uid₂ b₂) uid₂ = some u →
        u.is_active = b₂) := by
  obtain ⟨hmsgs, hid, hint, hmem⟩ :=
    svcAddMessage_ok db now tid uid msg b m db' hfresh h
  refine ⟨⟨{ id := db.nextMessageId, ticket_id := tid, user_id := uid,
             message := strTrim msg, is_internal := boolToSqlite b,
             created_at := now }, ?_, hid.symm, rfl⟩, hint, hmem, ?_⟩
  · rw [hmsgs]
    simp
  · intro db₂ uid₂ b₂ u hu
    simp only [svcGetUser, svcUpdateUserIsActive,
      Option.map_eq_some'] at hu
    obtain ⟨ur, hur, hproj⟩ := hu
    have h2 := active_flag_update_read db₂.users uid₂ b₂ ur hur
    rw [← hproj]
    show sqliteToBool ur.is_active = b₂
    rw [h2]
    cases b₂ <;> rfl

/-- C1 witness: a member append of a public message on the sample state,
observed back as `is_internal = false` everywhere. -/
theorem boolean_roundtrip_witness :
    (∃ row ∈ dbW.messages, row.id = mW.id
      ∧ row.is_internal = boolToSqlite false)
    ∧ mW.is_internal = false
    ∧ mW ∈ getTicketMessages dbW 1
    ∧ (∀ (db₂ : Db) (uid₂ : Nat) (b₂ : Bool) (u : UserInfo),
        svcGetUser (svcUpdateUserIsActive db₂ uid₂ b₂) uid₂ = some u →
        u.is_active = b₂) :=
  boolean_roundtrip_at_persistence_boundary dbC2 20 1 2 "hi" false mW dbW
    (by decide) (by decide)

/-- C3: visibility resolution on append through the controller — the
persisted message is internal exactly when the author's role is
administrator and the caller-supplied flag requested internal; in
particular a member requesting internal yields a public message. -/
theorem message_visibility_resolution (db : Db) (now : Nat)
    (user : AuthUser) (ticketId : Nat) (message : Option String)
    (req : Bool) (m : TicketMessage) (db' : Db)
    (hfresh : ∀ r ∈ db.messages, r.id ≠ db.nextMessageId)
    (h : ctrlAddMessage db now user ticketId message req = (.ok m, db')) :
    m.is_internal = true ↔ (user.role = "admin" ∧ req = true) := by
  simp only [ctrlAddMessage] at h
  split at h
  · exact absurd (congrArg Prod.fst h) (by simp)
  · split at h
    · exact absurd (congrArg Prod.fst h) (by simp)
    · split at h
      · exact absurd (congrArg Prod.fst h) (by simp)
      · obtain ⟨-, -, hint, -⟩ := svcAddMessage_ok db now ticketId
          user.userId (strTrim (message.getD ""))
          (user.role == "admin" && req) m db' hfresh h
        rw [hint]
        cases hr : user.role == "admin" <;> cases req <;>
          simp_all

/-- C3 witness: the administrator's internal request on the sample state
persists as internal (and the iff holds at this input). -/
theorem message_visibility_resolution_witness :
    mW3.is_internal = true ↔
      ((⟨1, "admin"⟩ : AuthUser).role = "admin" ∧ true = true) :=
  message_visibility_resolution dbC2 21 ⟨1, "admin"⟩ 1 (some "secret")
    true mW3 dbW3 (by decide) (by decide)

/-- C5: the Facade authorization policy — a member who is neither the
ticket's owner nor an administrator receives ForbiddenError from every
ticket-scoped operation (detail view, thread read, attachment list, add
message, upload, download), and every non-administrator — including the
owner — receives ForbiddenError with the state unchanged from
status/priority/assignee update, ticket delete and attachment delete. -/
theorem authorization_policy (db : Db) (u : AuthUser) (tid : Nat)
    (t : Ticket)
    (hrole : u.role = "user")
    (ht : getTicketById db tid = some t)
    (hown : t.user_id ≠ u.userId) :
    ctrlGetTicketById db u tid = .error (.forbidden "Access denied")
    ∧ ctrlGetTicketMessages db u tid = .error (.forbidden "Access denied")
    ∧ ctrlGetTicketAttachments db u tid =
        .error (.forbidden "Access denied")
    ∧ (∀ (now : Nat) (msg : String) (req : Bool), strTrim msg ≠ "" →
        ctrlAddMessage db now u tid (some msg) req =
          (.error (.forbidden "Access denied"), db))
    ∧ (∀ (now : Nat) (sf : String) (f : UploadedFile),
        ctrlUploadAttachment db now sf u tid (some f) =
          (.error (.forbidden "Access denied"), db))
    ∧ (∀ (aid : Nat) (a : Attachment), getAttachmentById db aid = some a →
        a.ticket_id = tid →
        ctrlDownloadAttachment db u aid =
          .error (.forbidden "Access denied"))
    ∧ (∀ (u₂ : AuthUser) (now₂ id : Nat) (upd : TicketUpdate),
        u₂.role ≠ "admin" →
        routeUpdateTicket db now₂ u₂ id upd =
          (.error (.forbidden "Admin access required"), db))
    ∧ (∀ (u₂ : AuthUser) (id : Nat), u₂.role ≠ "admin" →
        routeDeleteTicket db u₂ id =
          (.error (.forbidden "Admin access required"), db))
    ∧ (∀ (u₂ : AuthUser) (uf : String → Bool) (id : Nat),
        u₂.role ≠ "admin" →
        ctrlDeleteAttachment db uf u₂ id =
          (.error (.forbidden "Admin access required"), db)) := by
  have hadmin : u.role ≠ "admin" := by
    rw [hrole]
    decide
  refine ⟨?_, ?_, ?_, ?_, ?_, ?_, ?_, ?_, ?_⟩
  · simp [ctrlGetTicketById, getTicketWithDetails, ht, hadmin, hown]
  · simp [ctrlGetTicketMessages, ht, hadmin, hown]
  · simp [ctrlGetTicketAttachments, ht, hadmin, hown]
  · intro now msg req hmsg
    have h0 : (msg == "") = false := by
      rcases eq_or_ne msg "" with rfl | hne
      · exact absurd (by decide) hmsg
      · simp [hne]
    have h1 : (strTrim msg == "") = false := by simp [hmsg]
    simp [ctrlAddMessage, jsFalsy, h0, h1, ht, hadmin, hown]
  · intro now sf f
    simp [ctrlUploadAttachment, ht, hadmin, hown]
  · intro aid a ha hat
    simp [ctrlDownloadAttachment, validateFileAccess, ha, hat, ht,
      hrole, hown]
  · intro u₂ now₂ id upd h₂
    simp [routeUpdateTicket, h₂]
  · intro u₂ id h₂
    simp [routeDeleteTicket, h₂]
  · intro u₂ uf id h₂
    simp [ctrlDeleteAttachment, h₂]

/-- C5 witness: member 3 (a non-owner) is denied every read/write on
member 2's ticket, and the owner (member 2) is denied update, ticket
delete and attachment delete, with the state unchanged. -/
theorem authorization_policy_witness :
    ctrlGetTicketById dbC4 ⟨3, "user"⟩ 1 =
      .error (.forbidden "Access denied")
    ∧ ctrlGetTicketMessages dbC4 ⟨3, "user"⟩ 1 =
      .error (.forbidden "Access denied")
    ∧ ctrlGetTicketAttachments dbC4 ⟨3, "user"⟩ 1 =
      .error (.forbidden "Access denied")
    ∧ ctrlAddMessage dbC4 30 ⟨3, "user"⟩ 1 (some "hey") true =
      (.error (.forbidden "Access denied"), dbC4)
    ∧ ctrlUploadAttachment dbC4 31 "f.png" ⟨3, "user"⟩ 1 (some fOk) =
      (.error (.forbidden "Access denied"), dbC4)
    ∧ ctrlDownloadAttachment dbC4 ⟨3, "user"⟩ 1 =
      .error (.forbidden "Access denied")
    ∧ routeUpdateTicket dbC4 32 ⟨2, "user"⟩ 1 updW =
      (.error (.forbidden "Admin access required"), dbC4)
    ∧ routeDeleteTicket dbC4 ⟨2, "user"⟩ 1 =
      (.error (.forbidden "Admin access required"), dbC4)
    ∧ ctrlDeleteAttachment dbC4 alwaysFails ⟨2, "user"⟩ 1 =
      (.error (.forbidden "Admin access required"), dbC4) := by
  have h := authorization_policy dbC4 ⟨3, "user"⟩ 1 t1 rfl (by decide)
    (by decide)
  exact ⟨h.1, h.2.1, h.2.2.1,
    h.2.2.2.1 30 "hey" true (by decide),
    h.2.2.2.2.1 31 "f.png" fOk,
    h.2.2.2.2.2.1 1 att1 (by decide) rfl,
    h.2.2.2.2.2.2.1 ⟨2, "user"⟩ 32 1 updW (by decide),
    h.2.2.2.2.2.2.2.1 ⟨2, "user"⟩ 1 (by decide),
    h.2.2.2.2.2.2.2.2 ⟨2, "user"⟩ alwaysFails 1 (by decide)⟩

/-- C7: upload validation — exactly 5 MiB with an allowed type succeeds;
5 MiB + 1 fails with PayloadTooLargeError; a disallowed MIME type fails
with UnsupportedTypeError; and every validation failure returns the state
unchanged (no partial blob write, no metadata row). -/
theorem upload_validation (db : Db) (now : Nat) (sf : String)
    (tid uid : Nat) (f : UploadedFile) :
    (f.size = 5242880 → allowedMimeTypes.contains f.mimetype = true →
      ∃ a, (uploadFile db now sf tid uid f).1 = .ok a)
    ∧ (f.size = 5242881 →
      uploadFile db now sf tid uid f =
        (.error (.payloadTooLarge "File size exceeds maximum limit of 5MB"),
         db))
    ∧ (f.size ≤ MAX_FILE_SIZE →
      allowedMimeTypes.contains f.mimetype = false →
      uploadFile db now sf tid uid f =
        (.error (.unsupportedType "File type not allowed"), db)) := by
  refine ⟨?_, ?_, ?_⟩
  · intro hs hm
    have h1 : ¬ (MAX_FILE_SIZE < f.size) := by
      rw [hs]
      decide
    simp only [uploadFile, h1, if_false, hm, Bool.not_true]
    exact ⟨_, rfl⟩
  · intro hs
    have h1 : MAX_FILE_SIZE < f.size := by
      rw [hs]
      decide
    simp [uploadFile, h1]
  · intro hs hm
    have h1 : ¬ (MAX_FILE_SIZE < f.size) := by omega
    have hm' : f.mimetype ∉ allowedMimeTypes := by simpa using hm
    simp [uploadFile, h1, hm']

/-- C7 witness: the three validation outcomes at concrete uploads,
including the spec's `application/x-executable` example. -/
theorem upload_validation_witness :
    (∃ a, (uploadFile dbC2 60 "s1.png" 1 2 fOk).1 = .ok a)
    ∧ uploadFile dbC2 61 "s2.png" 1 2 fBig =
        (.error (.payloadTooLarge "File size exceeds maximum limit of 5MB"),
         dbC2)
    ∧ uploadFile dbC2 62 "s3.bin" 1 2 fExe =
        (.error (.unsupportedType "File type not allowed"), dbC2) :=
  ⟨(upload_validation dbC2 60 "s1.png" 1 2 fOk).1 (by decide) (by decide),
   (upload_validation dbC2 61 "s2.png" 1 2 fBig).2.1 (by decide),
   (upload_validation dbC2 62 "s3.bin" 1 2 fExe).2.2 (by decide)
     (by decide)⟩

/-- C8: ticket creation postcondition — every successfully created ticket
has status `open` and no assignee, priority defaults to `medium` when not
supplied, and a create with title, description or category absent fails
with ValidationError leaving the store unchanged. -/
theorem ticket_creation_postcondition (db : Db) (year rand now : Nat)
    (user : AuthUser)
    (title description category priority : Option String) :
    (∀ t db', ctrlCreateTicket db year rand now user title description
        category priority = (.ok t, db') →
      t.status = "open" ∧ t.assigned_to = none ∧
        (priority = none → t.priority = "medium"))
    ∧ ((jsFalsy title || jsFalsy description || jsFalsy category) = true →
      ctrlCreateTicket db year rand now user title description category
        priority =
        (.error (.validation "Title, description, and category are required"),
         db)) := by
  constructor
  · intro t db' h
    simp only [ctrlCreateTicket, svcCreateTicket] at h
    split at h
    · exact absurd (congrArg Prod.fst h) (by simp)
    · split at h
      · exact absurd (congrArg Prod.fst h) (by simp)
      · rw [Prod.mk.injEq] at h
        obtain ⟨hok, hdb⟩ := h
        rw [Except.ok.injEq] at hok
        refine ⟨?_, ?_, ?_⟩
        · rw [← hok]
        · rw [← hok]
        · intro hp
          rw [← hok]
          show (priority.getD "medium") = "medium"
          rw [hp]
          rfl
  · intro hvf
    simp [ctrlCreateTicket, svcCreateTicket, hvf]

/-- C8 witness: a concrete successful creation (priority defaulted) and a
concrete rejected creation with a missing title. -/
theorem ticket_creation_postcondition_witness :
    (tW.status = "open" ∧ tW.assigned_to = none ∧
      (none = (none : Option String) → tW.priority = "medium"))
    ∧ ctrlCreateTicket dbC2 2026 7 41 ⟨2, "user"⟩ none (some "D")
        (some "hardware") none =
      (.error (.validation "Title, description, and category are required"),
       dbC2) :=
  ⟨(ticket_creation_postcondition dbC2 2026 7 40 ⟨2, "user"⟩ (some "T")
      (some "D") (some "hardware") none).1 tW dbW8 (by decide),
   (ticket_creation_postcondition dbC2 2026 7 41 ⟨2, "user"⟩ none
      (some "D") (some "hardware") none).2 (by decide)⟩

/-- C9 counterexample: creating a ticket while the generator draws a
number already present in the store surfaces a uniqueness error to the
caller instead of regenerating a fresh number — `createTicket` has no
regeneration loop. -/
theorem ticket_number_collision_counterexample :
    ctrlCreateTicket dbC2 2026 42 50 ⟨2, "user"⟩ (some "T") (some "D")
      (some "hardware") none =
      (.error (.conflict "UNIQUE constraint failed: tickets.ticket_number"),
       dbC2) := by
  decide

/-- C9 amended: every generated ticket number matches
`TKT-<year>-<four digits>`, numbers of successful creations stay pairwise
distinct (enforced by the store's uniqueness constraint, not by the
generator), and a generation collision with an existing number surfaces a
uniqueness error to the caller — there is no regeneration. -/
theorem ticket_number_generation (year rand : Nat) (hr : rand < 10000)
    (db : Db) (now : Nat) (user : AuthUser)
    (title description category priority : Option String) :
    (∃ d : List Char, generateTicketNumber year rand =
        "TKT-" ++ natToStr year ++ "-" ++ String.mk d
      ∧ d.length = 4 ∧ ∀ c ∈ d, c.isDigit = true)
    ∧ (∀ t db', ctrlCreateTicket db year rand now user title description
          category priority = (.ok t, db') →
        (db.tickets.map Ticket.ticket_number).Nodup →
        (db'.tickets.map Ticket.ticket_number).Nodup)
    ∧ (jsFalsy title = false → jsFalsy description = false →
        jsFalsy category = false →
        db.tickets.any
          (fun t => t.ticket_number == generateTicketNumber year rand)
          = true →
        ctrlCreateTicket db year rand now user title description category
          priority =
          (.error
            (.conflict "UNIQUE constraint failed: tickets.ticket_number"),
           db)) := by
  refine ⟨?_, ?_, ?_⟩
  · refine ⟨pad4 (natToDecimal rand), rfl, ?_, ?_⟩
    · have hlen : (natToDecimal rand).length ≤ 4 :=
        natToDecimal_length_le rand 4 (by omega) (by norm_num; omega)
      simp only [pad4, List.length_append, List.length_replicate]
      omega
    · intro c hc
      rcases List.mem_append.mp hc with h₁ | h₂
      · rw [List.eq_of_mem_replicate h₁]
        decide
      · exact natToDecimal_digits rand c h₂
  · intro t db' h hnd
    simp only [ctrlCreateTicket, svcCreateTicket] at h
    split at h
    · exact absurd (congrArg Prod.fst h) (by simp)
    · split at h
      · exact absurd (congrArg Prod.fst h) (by simp)
      · rename_i hany
        rw [Prod.mk.injEq] at h
        obtain ⟨hok, hdb⟩ := h
        rw [← hdb]
        simp only [List.map_append, List.map_cons, List.map_nil]
        rw [List.nodup_append]
        refine ⟨hnd, List.nodup_singleton _, ?_⟩
        intro x hx hx2
        simp only [List.mem_singleton] at hx2
        simp only [List.mem_map] at hx
        obtain ⟨t', ht', hnum⟩ := hx
        have hany' : ∀ y ∈ db.tickets,
            y.ticket_number ≠ generateTicketNumber year rand := by
          intro y hy he
          exact hany (by
            rw [List.any_eq_true]
            exact ⟨y, hy, by simp [he]⟩)
        exact hany' t' ht' (hnum.trans hx2)
  · intro h1 h2 h3 hany
    simp [ctrlCreateTicket, svcCreateTicket, h1, h2, h3, hany]

/-- C9 witness: the format at a concrete draw, distinctness preserved by
the concrete successful creation, and the concrete surfaced collision. -/
theorem ticket_number_generation_witness :
    (∃ d : List Char, generateTicketNumber 2026 7 =
        "TKT-" ++ natToStr 2026 ++ "-" ++ String.mk d
      ∧ d.length = 4 ∧ ∀ c ∈ d, c.isDigit = true)
    ∧ (dbW8.tickets.map Ticket.ticket_number).Nodup
    ∧ ctrlCreateTicket dbC2 2026 42 50 ⟨2, "user"⟩ (some "T") (some "D")
        (some "hardware") none =
      (.error (.conflict "UNIQUE constraint failed: tickets.ticket_number"),
       dbC2) :=
  ⟨(ticket_number_generation 2026 7 (by decide) dbC2 40 ⟨2, "user"⟩
      (some "T") (some "D") (some "hardware") none).1,
   (ticket_number_generation 2026 7 (by decide) dbC2 40 ⟨2, "user"⟩
      (some "T") (some "D") (some "hardware") none).2.1 tW dbW8
      (by decide) (by decide),
   (ticket_number_generation 2026 42 (by decide) dbC2 50 ⟨2, "user"⟩
      (some "T") (some "D") (some "hardware") none).2.2 rfl rfl rfl
      (by decide)⟩

/-- C10: search is silently ownership-scoped — every ticket returned to a
non-administrator caller was created by that caller, while an
administrator's search is unscoped and contains every matching ticket.
(`userId ≠ 0` reflects AUTOINCREMENT ids starting at 1; a zero id would
be falsy in the JS `if (userId)` guard.) -/
theorem search_ownership_scope (db : Db) (user : AuthUser) (q : String) :
    (user.role ≠ "admin" → user.userId ≠ 0 →
      ∀ ts, ctrlSearchTickets db user (some q) = .ok ts →
        ∀ t ∈ ts, t.user_id = user.userId)
    ∧ (user.role = "admin" → q ≠ "" →
      ctrlSearchTickets db user (some q) =
        .ok (svcSearchTickets db q none)
      ∧ ∀ t ∈ db.tickets,
          (likeContains t.title q || likeContains t.description q ||
            likeContains t.ticket_number q) = true →
          t ∈ svcSearchTickets db q none) := by
  constructor
  · intro hrole h0 ts h t htm
    simp only [ctrlSearchTickets] at h
    split at h
    · exact absurd h (by simp)
    · have hrole' : (user.role == "admin") = false := by simp [hrole]
      rw [hrole'] at h
      simp only [Except.ok.injEq] at h
      rw [← h] at htm
      simp only [svcSearchTickets, mem_sortLe, List.mem_filter] at htm
      obtain ⟨-, hcond⟩ := htm
      rw [Bool.and_eq_true] at hcond
      obtain ⟨-, huid⟩ := hcond
      have h0' : (user.userId == 0) = false := by simp [h0]
      simp [h0'] at huid
      exact huid
  · intro hrole hq
    have h1 : jsFalsy (some q) = false := by simp [jsFalsy, hq]
    constructor
    · simp [ctrlSearchTickets, h1, hrole]
    · intro t htm hcond
      simp only [svcSearchTickets, mem_sortLe, List.mem_filter]
      refine ⟨htm, ?_⟩
      simp [hcond]

/-- C10 witness: on a store with tickets of two members, member 2's
search returns only member 2's ticket, and the administrator's search is
the unscoped complete result. -/
theorem search_ownership_scope_witness :
    t1.user_id = (⟨2, "user"⟩ : AuthUser).userId
    ∧ (ctrlSearchTickets dbC10 ⟨1, "admin"⟩ (some "printer") =
        .ok (svcSearchTickets dbC10 "printer" none)
      ∧ ∀ t ∈ dbC10.tickets,
          (likeContains t.title "printer" ||
            likeContains t.description "printer" ||
            likeContains t.ticket_number "printer") = true →
          t ∈ svcSearchTickets dbC10 "printer" none) :=
  ⟨(search_ownership_scope dbC10 ⟨2, "user"⟩ "printer").1 (by decide)
      (by decide) [t1] (by decide) t1 (by decide),
   (search_ownership_scope dbC10 ⟨1, "admin"⟩ "printer").2 rfl
     (by decide)⟩

end SupportTicket
